import Mathlib

/-
  Verification of the rule-based medical diet recommendation system.

  Shallow embedding of the core modules:
    app/data/schema.py   (the user-profile data model)
    app/data/foods.py    (the FoodItem catalog record)
    app/rules/engine.py  (build_constraints, filter_foods)
    app/services/calculators.py (estimate_daily_calories, compute_macros)
    app/services/planner.py (_pick_items_for_meal, _compute_meal_split,
                             assemble_day_plan, generate_weekly_plan)

  Python floats are modelled as exact rationals (every numeric literal of the
  source is a decimal that ℚ holds exactly; the arithmetic of the verified
  scenarios stays exact in double precision as well).  Python's built-in
  round is round-half-to-even, modelled by pyRound.  Python strings are
  modelled through their character lists; str.lower, str.strip and the
  substring test `n in t` are lowerStr, trimStr and strContains.  Python
  sets are modelled as lists used only through membership, and dict update
  order is followed statement by statement.
-/

namespace DietRec

/-- Python str.lower, character by character. -/
def lowerStr (s : String) : String := ⟨s.data.map Char.toLower⟩

/-- Python str.strip: whitespace removed from both ends. -/
def trimStr (s : String) : String :=
  ⟨((s.data.dropWhile Char.isWhitespace).reverse.dropWhile Char.isWhitespace).reverse⟩

/-- Python substring test `n in t`: n occurs contiguously in t. -/
def strContains (t n : String) : Bool :=
  (List.range (t.data.length + 1)).any (fun i => n.data.isPrefixOf (t.data.drop i))

/-- Python round(x): round half to even (banker's rounding). -/
def pyRound (x : ℚ) : ℤ :=
  let f := ⌊x⌋
  let r := x - f
  if r < 1 / 2 then f
  else if 1 / 2 < r then f + 1
  else if f % 2 = 0 then f else f + 1

/-- Python round(x, n): round to n decimal digits, half to even. -/
def pyRoundTo (n : ℕ) (x : ℚ) : ℚ := (pyRound (x * 10 ^ n) : ℚ) / 10 ^ n

/-- Python int(x) on a rational: truncation toward zero. -/
def pyInt (q : ℚ) : ℤ := if 0 ≤ q then ⌊q⌋ else ⌈q⌉

/-- Python truthiness of an optional float field (None and 0.0 are falsy). -/
def truthyOptQ : Option ℚ → Bool
  | none => false
  | some v => v != 0

/-- Python truthiness of an optional int field (None and 0 are falsy). -/
def truthyOptInt : Option ℤ → Bool
  | none => false
  | some v => v != 0

/- ---------------- data model (app/data/schema.py) ---------------- -/

structure PersonalDetails where
  age : ℤ
  gender : String
  height_cm : ℚ
  weight_kg : ℚ
  bmi : Option ℚ := none
  body_type : Option String := none
  deriving DecidableEq

structure MedicalParameters where
  conditions : List String := []
  allergies : List String := []
  medications : List String := []
  blood_sugar_mgdl : Option ℚ := none
  blood_pressure : Option (ℤ × ℤ) := none
  cholesterol_mgdl : Option ℚ := none
  hemoglobin_gdl : Option ℚ := none
  deriving DecidableEq

structure DietaryPreferences where
  diet_type : String := "veg"
  likes : List String := []
  dislikes : List String := []
  preferred_cuisine : List String := []
  meal_frequency : ℤ := 3
  snacking_preference : String := "moderate"
  deriving DecidableEq

structure LifestyleParameters where
  activity_level : String := "sedentary"
  exercise_routine : String := "none"
  sleep_hours : ℚ := 7
  stress_level : String := "moderate"
  deriving DecidableEq

structure NutritionalRequirements where
  daily_calories : Option ℤ := none
  protein_g : Option ℚ := none
  carbs_g : Option ℚ := none
  fats_g : Option ℚ := none
  salt_limit_g : Option ℚ := none
  sugar_limit_g : Option ℚ := none
  water_liters : Option ℚ := none
  deriving DecidableEq

structure SpecialDietRules where
  low_gi : Bool := false
  low_sodium : Bool := false
  high_fiber : Bool := false
  renal : Bool := false
  high_protein : Bool := false
  anti_inflammatory : Bool := false
  weight_gain : Bool := false
  weight_loss : Bool := false
  gluten_free : Bool := false
  lactose_free : Bool := false
  deriving DecidableEq

structure UserProfile where
  personal : PersonalDetails
  medical : MedicalParameters
  dietary : DietaryPreferences
  lifestyle : LifestyleParameters
  nutrition : NutritionalRequirements
  special : SpecialDietRules
  deriving DecidableEq

/- ---------------- catalog record (app/data/foods.py) ---------------- -/

structure FoodItem where
  name : String
  calories : ℤ
  protein_g : ℚ
  carbs_g : ℚ
  fat_g : ℚ
  fiber_g : ℚ
  sodium_mg : ℤ
  gi : String
  tags : List String
  diet_types : List String
  meal_types : List String
  cuisines : List String
  allergens : List String
  deriving DecidableEq

/- ---------------- rule engine (app/rules/engine.py) ---------------- -/

structure ConstraintSpec where
  required_tags : List String
  prefer_tags : List String
  avoid_tags : List String
  avoid_names : List String
  exclude_allergens : List String
  diet_types_allowed : List String
  cuisine_preferences : List String
  max_sodium_mg : Option ℤ
  deriving DecidableEq

/-- engine._contains_any: some needle occurs in the lowercased text. -/
def containsAny (text : String) (needles : List String) : Bool :=
  let t := lowerStr text
  needles.any (fun n => strContains t n)

/-- engine.py line 67 and calculators.py line 96: `cholesterol_mgdl and
cholesterol_mgdl >= 200` (Python truthiness, then the comparison). -/
def cholHigh (m : MedicalParameters) : Bool :=
  truthyOptQ m.cholesterol_mgdl && decide ((m.cholesterol_mgdl.getD 0) ≥ 200)

/-- engine.build_constraints: translate the profile into a ConstraintSpec and
a list of explanation strings, following the source statement by statement.
Set unions are modelled as list appends (membership is all that is used). -/
def build_constraints (profile : UserProfile) : ConstraintSpec × List String :=
  let conditions := profile.medical.conditions.map lowerStr
  let required0 : List String := []
  let prefer0 : List String := []
  let avoid0 : List String := ["fried", "processed", "refined_sugar", "refined_carbs"]
  let avoid_names0 : List String := []
  let allergens0 := profile.medical.allergies.map lowerStr
  let cuisines := profile.dietary.preferred_cuisine.map lowerStr
  let diet_allowed := [profile.dietary.diet_type]
  let expl0 : List String := []
  -- diabetes
  let diab := conditions.contains "diabetes"
  let required1 := if diab then required0 ++ ["low_gi"] else required0
  let prefer1 := if diab then prefer0 ++ ["high_fiber"] else prefer0
  let avoid1 := if diab then avoid0 ++ ["high_gi", "refined_sugar", "refined_carbs"] else avoid0
  let expl1 := if diab then
      expl0 ++ ["Applied diabetes rules: prefer low GI, high fiber; avoid refined sugar/carbs."]
    else expl0
  -- hypertension / low sodium toggle
  let hyper := conditions.contains "hypertension" || profile.special.low_sodium
  let prefer2 := if hyper then prefer1 ++ ["low_sodium"] else prefer1
  let avoid2 := if hyper then avoid1 ++ ["high_sodium"] else avoid1
  let sodium_limit : Option ℤ := if hyper then some 1500 else none
  let expl2 := if hyper then
      expl1 ++ ["Applied hypertension/low sodium rules: limit sodium ~1500 mg/day, avoid high-sodium foods."]
    else expl1
  -- heart disease / high cholesterol
  let heart := conditions.contains "heart disease" || cholHigh profile.medical
  let prefer3 := if heart then prefer2 ++ ["omega3", "anti_inflammatory", "low_saturated_fat"] else prefer2
  let avoid3 := if heart then avoid2 ++ ["high_saturated_fat", "fried", "processed"] else avoid2
  let expl3 := if heart then
      expl2 ++ ["Applied heart/cholesterol rules: prefer omega-3 and anti-inflammatory; avoid fried/processed/high saturated fat."]
    else expl2
  -- kidney disease / renal toggle
  let kidney := conditions.contains "kidney disease" || profile.special.renal
  let prefer4 := if kidney then prefer3 ++ ["low_potassium", "low_phosphorus"] else prefer3
  let avoid4 := if kidney then avoid3 ++ ["high_potassium", "high_phosphorus"] else avoid3
  let avoid_names1 := if kidney then avoid_names0 ++ ["banana", "rajma"] else avoid_names0
  let expl4 := if kidney then
      expl3 ++ ["Applied renal rules: limit potassium/phosphorus; avoid banana/rajma in this catalog."]
    else expl3
  -- pcod / pcos
  let pcodps := conditions.contains "pcod" || conditions.contains "pcos"
  let required2 := if pcodps then required1 ++ ["low_gi"] else required1
  let prefer5 := if pcodps then prefer4 ++ ["anti_inflammatory", "high_fiber", "lean_protein"] else prefer4
  let avoid5 := if pcodps then avoid4 ++ ["refined_sugar", "refined_carbs", "fried"] else avoid4
  let expl5 := if pcodps then
      expl4 ++ ["Applied PCOD/PCOS rules: low GI, anti-inflammatory, high fiber, lean protein."]
    else expl4
  -- gastric
  let gastric := conditions.contains "gastric" || conditions.contains "gastric issues"
  let avoid6 := if gastric then avoid5 ++ ["spicy", "fried"] else avoid5
  let prefer6 := if gastric then prefer5 ++ ["high_fiber"] else prefer5
  let expl6 := if gastric then
      expl5 ++ ["Applied gastric rules: avoid spicy/fried; emphasize gentle fiber and cooked veg."]
    else expl5
  -- thyroid
  let thyroid := conditions.contains "thyroid"
  let avoid_names2 := if thyroid then avoid_names1 ++ ["tofu"] else avoid_names1
  let expl7 := if thyroid then
      expl6 ++ ["Applied thyroid caution: limited soy-heavy items (e.g., tofu)."]
    else expl6
  -- special toggles
  let required3 := if profile.special.low_gi then required2 ++ ["low_gi"] else required2
  let expl8 := if profile.special.low_gi then expl7 ++ ["Special: Low GI enabled."] else expl7
  let prefer7 := if profile.special.high_fiber then prefer6 ++ ["high_fiber"] else prefer6
  let expl9 := if profile.special.high_fiber then expl8 ++ ["Special: High fiber enabled."] else expl8
  let prefer8 := if profile.special.high_protein then prefer7 ++ ["lean_protein"] else prefer7
  let expl10 := if profile.special.high_protein then expl9 ++ ["Special: High protein enabled."] else expl9
  let prefer9 := if profile.special.anti_inflammatory then prefer8 ++ ["anti_inflammatory"] else prefer8
  let expl11 := if profile.special.anti_inflammatory then
      expl10 ++ ["Special: Anti-inflammatory enabled."] else expl10
  let allergens1 := if profile.special.gluten_free then allergens0 ++ ["gluten"] else allergens0
  let expl12 := if profile.special.gluten_free then expl11 ++ ["Special: Gluten-free enabled."] else expl11
  let allergens2 := if profile.special.lactose_free then allergens1 ++ ["lactose"] else allergens1
  let expl13 := if profile.special.lactose_free then expl12 ++ ["Special: Lactose-free enabled."] else expl12
  (⟨required3, prefer9, avoid6, avoid_names2, allergens2, diet_allowed, cuisines, sodium_limit⟩, expl13)

/-- engine.filter_foods lines 131-132: the lowercased dislikes of the profile. -/
def dislikesOf (profile : UserProfile) : List String := profile.dietary.dislikes.map lowerStr

/-- engine.filter_foods lines 131-132: the lowercased likes of the profile. -/
def likesOf (profile : UserProfile) : List String := profile.dietary.likes.map lowerStr

/-- engine.filter_foods line 159: `if req and not any(tag in req for tag in
food.tags): return False` (the remaining required-tags check). -/
def reqRemainOk (req : List String) (food : FoodItem) : Bool :=
  if !req.isEmpty && !(food.tags.any (fun tag => req.contains tag)) then false else true

/-- engine.filter_foods lines 151-160: the required-tags check, with low_gi
accepted through the GI attribute or the tag, then discarded from the set. -/
def requiredOk (constraints : ConstraintSpec) (food : FoodItem) : Bool :=
  if constraints.required_tags.isEmpty then true
  else if constraints.required_tags.contains "low_gi" then
    if lowerStr food.gi == "low" || food.tags.contains "low_gi" then
      reqRemainOk (constraints.required_tags.filter (fun t => !(t == "low_gi"))) food
    else false
  else reqRemainOk constraints.required_tags food

/-- engine.filter_foods lines 134-164: the `allowed` predicate, one early
return per hard constraint, in source order. -/
def foodAllowed (profile : UserProfile) (constraints : ConstraintSpec) (food : FoodItem) : Bool :=
  if !(food.diet_types.contains profile.dietary.diet_type) then false
  else if food.allergens.any (fun a => constraints.exclude_allergens.contains a) then false
  else if containsAny food.name constraints.avoid_names then false
  else if food.tags.any (fun tag => constraints.avoid_tags.contains tag) then false
  else if constraints.avoid_tags.contains "high_gi" && lowerStr food.gi == "high" then false
  else if !(requiredOk constraints food) then false
  else if (dislikesOf profile).any (fun sub => strContains (lowerStr food.name) sub) then false
  else true

/-- engine.filter_foods lines 169-177: the soft preference score (negated for
ascending sort). -/
def foodScore (profile : UserProfile) (constraints : ConstraintSpec) (food : FoodItem) : ℤ :=
  let s1 : ℤ := if !constraints.cuisine_preferences.isEmpty &&
      food.cuisines.any (fun c => constraints.cuisine_preferences.contains c) then 2 else 0
  let s2 : ℤ := if food.tags.any (fun tag => constraints.prefer_tags.contains tag) then 1 else 0
  let s3 : ℤ := if (likesOf profile).any (fun like => strContains (lowerStr food.name) like) then 1 else 0
  Neg.neg (s1 + s2 + s3)

/-- Ascending comparison on foodScore (Python list.sort key).  A stable sort
under a total preorder has a unique result, so insertion sort below gives the
same list as Python's stable sort. -/
def scoreLe (profile : UserProfile) (constraints : ConstraintSpec) (a b : FoodItem) : Prop :=
  foodScore profile constraints a ≤ foodScore profile constraints b

instance (profile : UserProfile) (constraints : ConstraintSpec) :
    DecidableRel (scoreLe profile constraints) := fun a b => by
  unfold scoreLe; infer_instance

/-- engine.filter_foods: keep the allowed foods, stable-sort by score. -/
def filter_foods (foods : List FoodItem) (profile : UserProfile)
    (constraints : ConstraintSpec) : List FoodItem :=
  List.insertionSort (scoreLe profile constraints) (foods.filter (foodAllowed profile constraints))

/- ---------------- calculators (app/services/calculators.py) ---------------- -/

/-- config.ACTIVITY_FACTORS lookup with the dict.get default "sedentary". -/
def activityLookup (l : String) : ℚ :=
  if l = "sedentary" then 1.2
  else if l = "light" then 1.375
  else if l = "moderate" then 1.55
  else if l = "active" then 1.725
  else if l = "athlete" then 1.9
  else 1.2

/-- calculators._activity_factor: `(level or "sedentary").strip().lower()`
then the table lookup. -/
def _activity_factor (level : String) : ℚ :=
  activityLookup (lowerStr (trimStr (if level = "" then "sedentary" else level)))

/-- config.STRESS_MULTIPLIER lookup with the dict.get default "moderate". -/
def stressLookup (l : String) : ℚ :=
  if l = "low" then 1.0
  else if l = "moderate" then 1.03
  else if l = "high" then 1.06
  else 1.03

/-- calculators._stress_factor: `(level or "moderate").strip().lower()` then
the table lookup. -/
def _stress_factor (level : String) : ℚ :=
  stressLookup (lowerStr (trimStr (if level = "" then "moderate" else level)))

/-- calculators._bmr_mifflin_st_jeor. -/
def _bmr_mifflin_st_jeor (profile : UserProfile) : ℚ :=
  let w := profile.personal.weight_kg
  let h := profile.personal.height_cm
  let a := profile.personal.age
  let base := 10 * w + 6.25 * h - 5 * (a : ℚ)
  if profile.personal.gender = "male" then base + 5
  else if profile.personal.gender = "female" then base - 161
  else base - 78

/-- calculators.estimate_daily_calories lines 42-52: the BMR-based branch
(BMR times activity and stress factors, goal adjustment, Python round). -/
def tdeeEstimate (profile : UserProfile) : ℤ :=
  let bmr := _bmr_mifflin_st_jeor profile
  let tdee0 := bmr * _activity_factor profile.lifestyle.activity_level
  let tdee1 := tdee0 * _stress_factor profile.lifestyle.stress_level
  let tdee2 :=
    if profile.special.weight_loss && !profile.special.weight_gain then tdee1 * 0.85
    else if profile.special.weight_gain && !profile.special.weight_loss then tdee1 * 1.15
    else tdee1
  pyRound tdee2

/-- calculators.estimate_daily_calories: the user-supplied daily_calories is
honoured only when truthy (None and 0 both fall through to the BMR branch). -/
def estimate_daily_calories (profile : UserProfile) : ℤ :=
  match profile.nutrition.daily_calories with
  | some c => if c ≠ 0 then c else tdeeEstimate profile
  | none => tdeeEstimate profile

structure MacroTargets where
  protein_g : ℚ
  carbs_g : ℚ
  fats_g : ℚ
  deriving DecidableEq

/-- calculators.compute_macros line 68: all three user macro fields truthy. -/
def macroOverrides (profile : UserProfile) : Bool :=
  truthyOptQ profile.nutrition.protein_g && truthyOptQ profile.nutrition.carbs_g &&
    truthyOptQ profile.nutrition.fats_g

/-- calculators.compute_macros lines 76-99: the percentage triple
(protein, carbs, fats) after each conditional adjustment, in source order. -/
def macroPcts (profile : UserProfile) : ℚ × ℚ × ℚ :=
  let conditions := profile.medical.conditions.map lowerStr
  let t0 : ℚ × ℚ × ℚ := (0.20, 0.50, 0.30)
  let t1 := if conditions.contains "diabetes" || profile.special.low_gi then
      ((0.25 : ℚ), (0.45 : ℚ), (0.30 : ℚ)) else t0
  let t2 := if profile.special.high_protein then ((0.30 : ℚ), (0.40 : ℚ), (0.30 : ℚ)) else t1
  let t3 := if profile.special.weight_loss then
      let p := max t2.1 0.30
      let c := min t2.2.1 0.45
      (p, c, 1 - p - c)
    else t2
  let t4 := if conditions.contains "kidney disease" || profile.special.renal then
      let p := min t3.1 0.18
      let c := max t3.2.1 0.47
      (p, c, 1 - p - c)
    else t3
  let t5 := if conditions.contains "heart disease" || cholHigh profile.medical then
      let f := min t4.2.2 0.30
      let c := min t4.2.1 0.50
      (1 - f - c, c, f)
    else t4
  t5

/-- calculators.compute_macros lines 101-110: grams from the percentages
(4 kcal/g protein and carbs, 9 kcal/g fats), each rounded to 1 decimal. -/
def macroRatioResult (profile : UserProfile) (calories : ℤ) : MacroTargets :=
  let pcts := macroPcts profile
  ⟨pyRoundTo 1 ((calories : ℚ) * pcts.1 / 4),
   pyRoundTo 1 ((calories : ℚ) * pcts.2.1 / 4),
   pyRoundTo 1 ((calories : ℚ) * pcts.2.2 / 9)⟩

/-- calculators.compute_macros: user macros verbatim when all three are
truthy, else the ratio-derived grams. -/
def compute_macros (profile : UserProfile) (calories : ℤ) : MacroTargets :=
  if macroOverrides profile then
    ⟨profile.nutrition.protein_g.getD 0, profile.nutrition.carbs_g.getD 0,
     profile.nutrition.fats_g.getD 0⟩
  else macroRatioResult profile calories

/- ---------------- planner (app/services/planner.py) ---------------- -/

structure MealItem where
  name : String
  calories : ℤ
  protein_g : ℚ
  carbs_g : ℚ
  fats_g : ℚ
  fiber_g : ℚ
  sodium_mg : ℤ
  deriving DecidableEq

instance : Inhabited MealItem := ⟨⟨"", 0, 0, 0, 0, 0, 0⟩⟩

/-- planner._to_item. -/
def _to_item (f : FoodItem) : MealItem :=
  ⟨f.name, f.calories, f.protein_g, f.carbs_g, f.fat_g, f.fiber_g, f.sodium_mg⟩

/-- planner._pick_items_for_meal sort key: (|calories - target|, sodium_mg)
ascending, as a total preorder for the stable sort. -/
def pickLe (target_cal : ℤ) (a b : FoodItem) : Prop :=
  |a.calories - target_cal| < |b.calories - target_cal| ∨
    (|a.calories - target_cal| = |b.calories - target_cal| ∧ a.sodium_mg ≤ b.sodium_mg)

instance (target_cal : ℤ) : DecidableRel (pickLe target_cal) := fun a b => by
  unfold pickLe; infer_instance

/-- planner._pick_items_for_meal: greedy pick of the best single item whose
sodium fits the budget, plus one optional add-on when the first item covers
less than 60% of the calorie target. -/
def _pick_items_for_meal (cands : List FoodItem) (target_cal : ℤ) (sodium_budget : ℤ) :
    List MealItem :=
  if cands.isEmpty then []
  else
    let cands_sorted := List.insertionSort (pickLe target_cal) cands
    match cands_sorted.find? (fun f => decide (f.sodium_mg ≤ sodium_budget)) with
    | none => []
    | some f =>
      let budget2 := sodium_budget - f.sodium_mg
      let current_cal := f.calories
      if (current_cal : ℚ) < 0.6 * (target_cal : ℚ) then
        match cands_sorted.find? (fun g =>
            decide (g.calories ≤ target_cal - current_cal) &&
            decide (g.sodium_mg ≤ budget2) && !(g.name == f.name)) with
        | none => [_to_item f]
        | some g => [_to_item f, _to_item g]
      else [_to_item f]

structure MealSplit where
  breakfast : ℚ
  lunch : ℚ
  dinner : ℚ
  snacks : ℚ
  deriving DecidableEq

/-- planner._compute_meal_split: default split adjusted by meal frequency and
snacking preference, then normalized to sum 1 and rounded to 4 decimals. -/
def _compute_meal_split (profile : UserProfile) : MealSplit :=
  let mf := profile.dietary.meal_frequency
  let freq := max 3 (min 6 (if mf ≠ 0 then mf else 3))
  let snack_pref := lowerStr (if profile.dietary.snacking_preference = "" then "moderate"
    else profile.dietary.snacking_preference)
  let split0 : MealSplit := ⟨0.25, 0.35, 0.30, 0.10⟩
  let snack_base : ℚ :=
    if snack_pref = "low" then 0.07
    else if snack_pref = "moderate" then 0.10
    else if snack_pref = "high" then 0.15
    else 0.10
  let split1 :=
    if freq ≥ 4 then
      let extra := 0.03 * ((freq : ℚ) - 3)
      let snack_share := min 0.20 (snack_base + extra)
      let reduce := snack_share - split0.snacks
      let lunch_dinner_total := split0.lunch + split0.dinner
      { split0 with
          snacks := snack_share,
          lunch := split0.lunch - reduce * (split0.lunch / lunch_dinner_total),
          dinner := split0.dinner - reduce * (split0.dinner / lunch_dinner_total) }
    else
      let delta := snack_base - split0.snacks
      if |delta| > 1 / 1000000 then { split0 with snacks := snack_base, lunch := split0.lunch - delta }
      else split0
  let total := split1.breakfast + split1.lunch + split1.dinner + split1.snacks
  ⟨pyRoundTo 4 (split1.breakfast / total), pyRoundTo 4 (split1.lunch / total),
   pyRoundTo 4 (split1.dinner / total), pyRoundTo 4 (split1.snacks / total)⟩

structure Totals where
  calories : ℤ
  protein_g : ℚ
  carbs_g : ℚ
  fats_g : ℚ
  fiber_g : ℚ
  sodium_mg : ℤ
  deriving DecidableEq

/-- helpers.round_nearest: `base * round(x / base)`. -/
def round_nearest (x : ℚ) (base : ℚ) : ℚ := base * (pyRound (x / base) : ℚ)

/-- planner.assemble_day_plan `agg`: accumulate one meal's items. -/
def aggMeal (meal_items : List MealItem) : Totals :=
  meal_items.foldl (fun tot i =>
    ⟨tot.calories + i.calories, tot.protein_g + i.protein_g, tot.carbs_g + i.carbs_g,
     tot.fats_g + i.fats_g, tot.fiber_g + i.fiber_g, tot.sodium_mg + i.sodium_mg⟩)
    ⟨0, 0, 0, 0, 0, 0⟩

/-- planner.assemble_day_plan totals loop: add a meal's aggregate. -/
def addTotals (a b : Totals) : Totals :=
  ⟨a.calories + b.calories, a.protein_g + b.protein_g, a.carbs_g + b.carbs_g,
   a.fats_g + b.fats_g, a.fiber_g + b.fiber_g, a.sodium_mg + b.sodium_mg⟩

structure DayPlan where
  meals : List (String × List MealItem)
  totals : Totals
  meal_split : MealSplit
  deriving DecidableEq

/-- planner.assemble_day_plan.  The source takes the catalog from
data.foods.get_foods(), an external provider (spec section 6); here the
catalog is the `foods` parameter.  Meal dict order follows the split dict:
breakfast, lunch, dinner, snacks. -/
def assemble_day_plan (foods : List FoodItem) (profile : UserProfile)
    (calories : ℤ) (sodium_limit : ℤ) : DayPlan × List String :=
  let constraints := (build_constraints profile).1
  let filtered := filter_foods foods profile constraints
  let split := _compute_meal_split profile
  let candidates := fun (meal : String) => filtered.filter (fun f => f.meal_types.contains meal)
  let pick := fun (meal : String) (frac : ℚ) (sodium : ℤ) =>
    _pick_items_for_meal (candidates meal) (pyRound (frac * (calories : ℚ))) sodium
  let picks_breakfast := pick "breakfast" split.breakfast (pyInt ((sodium_limit : ℚ) * split.breakfast))
  let picks_lunch := pick "lunch" split.lunch (pyInt ((sodium_limit : ℚ) * split.lunch))
  let picks_dinner := pick "dinner" split.dinner (pyInt ((sodium_limit : ℚ) * split.dinner))
  let notes0 : List String := []
  let notes1 := if picks_breakfast.isEmpty then
      notes0 ++ ["No candidates found for breakfast meeting constraints; consider relaxing dislikes or cuisines."]
    else notes0
  let notes2 := if picks_lunch.isEmpty then
      notes1 ++ ["No candidates found for lunch meeting constraints; consider relaxing dislikes or cuisines."]
    else notes1
  let notes3 := if picks_dinner.isEmpty then
      notes2 ++ ["No candidates found for dinner meeting constraints; consider relaxing dislikes or cuisines."]
    else notes2
  let snack_cands := if (candidates "snacks").isEmpty then candidates "snack" else candidates "snacks"
  let picks_snacks := if !snack_cands.isEmpty then
      _pick_items_for_meal snack_cands (pyRound (split.snacks * (calories : ℚ)))
        (pyInt ((sodium_limit : ℚ) * split.snacks))
    else []
  let notes4 := if !snack_cands.isEmpty then notes3
    else notes3 ++ ["No snack candidates available under current constraints."]
  let meals : List (String × List MealItem) :=
    [("breakfast", picks_breakfast), ("lunch", picks_lunch),
     ("dinner", picks_dinner), ("snacks", picks_snacks)]
  let totals0 := (meals.map (fun m => aggMeal m.2)).foldl addTotals ⟨0, 0, 0, 0, 0, 0⟩
  let totals : Totals :=
    { totals0 with
        protein_g := round_nearest totals0.protein_g 0.1,
        carbs_g := round_nearest totals0.carbs_g 0.1,
        fats_g := round_nearest totals0.fats_g 0.1,
        fiber_g := round_nearest totals0.fiber_g 0.1 }
  (⟨meals, totals, split⟩, notes4)

/-- planner.generate_weekly_plan day labels. -/
def week_days : List String := ["Mon", "Tue", "Wed", "Thu", "Fri", "Sat", "Sun"]

/-- planner.generate_weekly_plan: rotate each meal slot by the day index
(items[idx % len(items)]), empty slots stay empty. -/
def generate_weekly_plan (day_plan : DayPlan) : List (String × List (String × List MealItem)) :=
  week_days.enum.map (fun p =>
    (p.2, day_plan.meals.map (fun mi =>
      (mi.1, if mi.2.isEmpty then [] else [mi.2.getD (p.1 % mi.2.length) default]))))

/- ---------------- shared lemmas ---------------- -/

theorem mem_ite_append {α : Type} {a : α} {l r : List α} {c : Prop} [Decidable c]
    (h : a ∈ l) : a ∈ (if c then l ++ r else l) := by
  split
  · exact List.mem_append_left _ h
  · exact h

/- ---------------- C1 ---------------- -/

/-- Profile whose only condition mentions "diabetes" strictly as a substring
of a longer condition name. -/
def typeTwoProfile : UserProfile :=
  { personal := { age := 40, gender := "male", height_cm := 175, weight_kg := 80 }
    medical := { conditions := ["type 2 diabetes"] }
    dietary := {}
    lifestyle := {}
    nutrition := {}
    special := {} }

/-- C1 counterexample: the profile's condition "type 2 diabetes" contains
"diabetes" as a substring (lowercased), yet build_constraints does NOT put
"low_gi" into required_tags — condition rules fire on exact set membership
(`"diabetes" in conditions` on a Python set), never on substring match. -/
theorem substring_condition_counterexample :
    (typeTwoProfile.medical.conditions.any
      (fun c => strContains (lowerStr c) "diabetes")) = true ∧
    "low_gi" ∉ (build_constraints typeTwoProfile).1.required_tags := by
  decide

/-- C1 (amended): for every profile whose lowercased condition set contains
the exact string "diabetes", build_constraints returns "low_gi" in
required_tags, "high_fiber" in prefer_tags, and "high_gi", "refined_sugar",
"refined_carbs" in avoid_tags.  (Trigger is case-insensitive EXACT match of
a condition name, not substring match.) -/
theorem diabetes_rules_exact_match (profile : UserProfile)
    (h : "diabetes" ∈ profile.medical.conditions.map lowerStr) :
    "low_gi" ∈ (build_constraints profile).1.required_tags ∧
    "high_fiber" ∈ (build_constraints profile).1.prefer_tags ∧
    "high_gi" ∈ (build_constraints profile).1.avoid_tags ∧
    "refined_sugar" ∈ (build_constraints profile).1.avoid_tags ∧
    "refined_carbs" ∈ (build_constraints profile).1.avoid_tags := by
  have hd : (profile.medical.conditions.map lowerStr).contains "diabetes" = true := by
    simpa using h
  refine ⟨?_, ?_, ?_, ?_, ?_⟩ <;>
    simp only [build_constraints, hd, Bool.true_eq, if_true, eq_self_iff_true] <;>
    (repeat apply mem_ite_append) <;> simp

/-- Profile with the exact condition "Diabetes" (case-insensitive match). -/
def diabetesProfile : UserProfile :=
  { personal := { age := 40, gender := "male", height_cm := 175, weight_kg := 80 }
    medical := { conditions := ["Diabetes"] }
    dietary := {}
    lifestyle := {}
    nutrition := {}
    special := {} }

/-- C1 witness: the amended theorem applied to a concrete diabetic profile. -/
theorem diabetes_rules_exact_match_witness :
    "low_gi" ∈ (build_constraints diabetesProfile).1.required_tags ∧
    "high_fiber" ∈ (build_constraints diabetesProfile).1.prefer_tags ∧
    "high_gi" ∈ (build_constraints diabetesProfile).1.avoid_tags ∧
    "refined_sugar" ∈ (build_constraints diabetesProfile).1.avoid_tags ∧
    "refined_carbs" ∈ (build_constraints diabetesProfile).1.avoid_tags :=
  diabetes_rules_exact_match diabetesProfile (by decide)

/- ---------------- C2 ---------------- -/

theorem reqRemainOk_iff (req : List String) (food : FoodItem) :
    reqRemainOk req food = true ↔ (req ≠ [] → ∃ t ∈ food.tags, t ∈ req) := by
  unfold reqRemainOk
  split_ifs with hc
  · simp only [Bool.and_eq_true, Bool.not_eq_true'] at hc
    obtain ⟨he, ha⟩ := hc
    have hne : req ≠ [] := List.isEmpty_eq_false.mp he
    have ha' : ∀ x ∈ food.tags, x ∉ req := by simpa using ha
    constructor
    · intro hfalse; exact absurd hfalse (by simp)
    · intro hx
      obtain ⟨t, ht, htr⟩ := hx hne
      exact absurd htr (ha' t ht)
  · simp only [Bool.and_eq_true, Bool.not_eq_true'] at hc
    constructor
    · intro _ hne
      have he : req.isEmpty = false := List.isEmpty_eq_false.mpr hne
      cases hb : (food.tags.any fun tag => req.contains tag) with
      | false => exact absurd ⟨he, hb⟩ hc
      | true => simpa using hb
    · intro _; rfl

/-- C2 (confirmed): the required-tags check of filter_foods.  When
required_tags is non-empty a food passes iff (1) whenever "low_gi" is
required, the food's GI attribute (lowercased, as the engine compares it)
equals "low" or "low_gi" is among its tags, and (2) whenever the required
set minus low_gi is non-empty the food carries at least one tag from that
remainder — any-of semantics, not all-of. -/
theorem required_tags_check_iff (constraints : ConstraintSpec) (food : FoodItem)
    (h : constraints.required_tags ≠ []) :
    requiredOk constraints food = true ↔
      (("low_gi" ∈ constraints.required_tags →
          (lowerStr food.gi = "low" ∨ "low_gi" ∈ food.tags)) ∧
       ((∃ t ∈ constraints.required_tags, t ≠ "low_gi") →
          ∃ t ∈ food.tags, t ∈ constraints.required_tags ∧ t ≠ "low_gi")) := by
  have hne : constraints.required_tags.isEmpty = false := by
    simpa [List.isEmpty_iff] using h
  by_cases hlg : "low_gi" ∈ constraints.required_tags
  · have hlgc : constraints.required_tags.contains "low_gi" = true := by simpa using hlg
    by_cases hgi : (lowerStr food.gi == "low" || food.tags.contains "low_gi") = true
    · have hgiP : lowerStr food.gi = "low" ∨ "low_gi" ∈ food.tags := by
        simpa using hgi
      rw [requiredOk]
      simp only [hne, Bool.false_eq_true, if_false, hlgc, if_true, hgi, reqRemainOk_iff]
      constructor
      · intro hx
        refine ⟨fun _ => hgiP, fun ⟨t, ht, htne⟩ => ?_⟩
        have hfil : constraints.required_tags.filter (fun t => !(t == "low_gi")) ≠ [] := by
          simp only [ne_eq, List.filter_eq_nil_iff, not_forall]
          exact ⟨t, ht, by simpa using htne⟩
        obtain ⟨u, hu, hur⟩ := hx hfil
        simp only [List.mem_filter, Bool.not_eq_true', beq_eq_false_iff_ne, ne_eq] at hur
        exact ⟨u, hu, hur.1, hur.2⟩
      · intro hx hfil
        simp only [ne_eq, List.filter_eq_nil_iff, not_forall] at hfil
        obtain ⟨t, ht, htne⟩ := hfil
        have : ∃ u ∈ food.tags, u ∈ constraints.required_tags ∧ u ≠ "low_gi" :=
          hx.2 ⟨t, ht, by simpa using htne⟩
        obtain ⟨u, hu, hur, hune⟩ := this
        exact ⟨u, hu, by simp [List.mem_filter, hur, hune]⟩
    · have hgiP : ¬(lowerStr food.gi = "low" ∨ "low_gi" ∈ food.tags) := by
        simpa using hgi
      rw [requiredOk]
      simp only [hne, Bool.false_eq_true, if_false, hlgc, if_true, hgi]
      simp only [false_iff, not_and, not_exists]
      intro hx
      exact absurd (hx hlg) hgiP
  · have hlgc : constraints.required_tags.contains "low_gi" = false := by simpa using hlg
    rw [requiredOk]
    simp only [hne, Bool.false_eq_true, if_false, hlgc, reqRemainOk_iff]
    constructor
    · intro hx
      refine ⟨fun hmem => absurd hmem hlg, fun _ => ?_⟩
      obtain ⟨t, ht, htr⟩ := hx h
      exact ⟨t, ht, htr, fun he => hlg (he ▸ htr)⟩
    · intro hx _
      obtain ⟨t0, ht0⟩ := List.exists_mem_of_ne_nil _ h
      obtain ⟨u, hu, hur, _⟩ := hx.2 ⟨t0, ht0, fun he => hlg (he ▸ ht0)⟩
      exact ⟨u, hu, hur⟩

/-- Concrete constraints for the C2 witness. -/
def reqConstraints : ConstraintSpec :=
  ⟨["low_gi", "high_fiber"], [], [], [], [], ["veg"], [], none⟩

/-- Concrete food for the C2 witness. -/
def oatsFood : FoodItem :=
  ⟨"Oats porridge (water)", 180, 6, 30, 3, 5, 120, "low",
   ["low_gi", "high_fiber", "whole_grain"], ["veg", "vegan"], ["breakfast"], ["indian"], []⟩

/-- C2 witness: the required-tags characterization at a concrete
constraint set and food. -/
theorem required_tags_check_iff_witness :
    requiredOk reqConstraints oatsFood = true ↔
      (("low_gi" ∈ reqConstraints.required_tags →
          (lowerStr oatsFood.gi = "low" ∨ "low_gi" ∈ oatsFood.tags)) ∧
       ((∃ t ∈ reqConstraints.required_tags, t ≠ "low_gi") →
          ∃ t ∈ oatsFood.tags, t ∈ reqConstraints.required_tags ∧ t ≠ "low_gi")) :=
  required_tags_check_iff reqConstraints oatsFood (by decide)

/- ---------------- C3 ---------------- -/

/-- The profile with one more allergen in medical.allergies. -/
def addAllergen (profile : UserProfile) (a : String) : UserProfile :=
  { profile with medical := { profile.medical with allergies := a :: profile.medical.allergies } }

theorem build_constraints_addAllergen (profile : UserProfile) (a : String) :
    (build_constraints (addAllergen profile a)).1 =
      { (build_constraints profile).1 with
          exclude_allergens := lowerStr a :: (build_constraints profile).1.exclude_allergens } := by
  simp only [build_constraints, addAllergen]
  cases hg : profile.special.gluten_free <;> cases hl : profile.special.lactose_free <;>
    simp [hg, hl, cholHigh]

/-- foodAllowed as the conjunction of its seven hard checks. -/
theorem foodAllowed_eq_true_iff (profile : UserProfile) (constraints : ConstraintSpec)
    (food : FoodItem) :
    foodAllowed profile constraints food = true ↔
      food.diet_types.contains profile.dietary.diet_type = true ∧
      (food.allergens.any fun x => constraints.exclude_allergens.contains x) = false ∧
      containsAny food.name constraints.avoid_names = false ∧
      (food.tags.any fun tag => constraints.avoid_tags.contains tag) = false ∧
      (constraints.avoid_tags.contains "high_gi" && lowerStr food.gi == "high") = false ∧
      requiredOk constraints food = true ∧
      ((dislikesOf profile).any fun sub => strContains (lowerStr food.name) sub) = false := by
  unfold foodAllowed
  split_ifs with h1 h2 h3 h4 h5 h6 h7 <;> simp_all

theorem foodAllowed_addAllergen (profile : UserProfile) (a : String) (food : FoodItem)
    (h : foodAllowed (addAllergen profile a) (build_constraints (addAllergen profile a)).1 food
        = true) :
    foodAllowed profile (build_constraints profile).1 food = true := by
  rw [build_constraints_addAllergen] at h
  rw [foodAllowed_eq_true_iff] at h ⊢
  obtain ⟨h1, h2, h3, h4, h5, h6, h7⟩ := h
  refine ⟨h1, ?_, h3, h4, h5, h6, h7⟩
  cases hq : (food.allergens.any fun x =>
      (build_constraints profile).1.exclude_allergens.contains x) with
  | false => rfl
  | true =>
    exfalso
    have hbig : (food.allergens.any fun x =>
        (lowerStr a :: (build_constraints profile).1.exclude_allergens).contains x) = true := by
      simp only [List.any_eq_true] at hq ⊢
      obtain ⟨x, hx, hxc⟩ := hq
      exact ⟨x, hx, by simpa using List.mem_cons_of_mem _ (by simpa using hxc)⟩
    rw [h2] at hbig
    cases hbig

theorem length_filter_mono {α : Type} (p q : α → Bool) (l : List α)
    (h : ∀ x, p x = true → q x = true) :
    (l.filter p).length ≤ (l.filter q).length := by
  induction l with
  | nil => simp
  | cons x xs ih =>
    rw [List.filter_cons, List.filter_cons]
    by_cases hp : p x = true
    · rw [if_pos hp, if_pos (h x hp)]
      simpa using ih
    · rw [if_neg hp]
      by_cases hq : q x = true
      · rw [if_pos hq]
        exact Nat.le_succ_of_le ih
      · rw [if_neg hq]
        exact ih

/-- C3 (confirmed): filtering is antitone in allergies — for every catalog,
profile and allergen string, adding the allergen to
profile.medical.allergies never increases the length of the filter_foods
output (the stable sort preserves length, and the allowed predicate only
gets harder to satisfy). -/
theorem filter_antitone_allergies (foods : List FoodItem) (profile : UserProfile) (a : String) :
    (filter_foods foods (addAllergen profile a)
        (build_constraints (addAllergen profile a)).1).length ≤
      (filter_foods foods profile (build_constraints profile).1).length := by
  unfold filter_foods
  rw [List.length_insertionSort, List.length_insertionSort]
  exact length_filter_mono _ _ foods (fun f hf => foodAllowed_addAllergen profile a f hf)

/- ---------------- C4 ---------------- -/

/-- C4 (confirmed): for every candidate list and non-negative sodium budget,
_pick_items_for_meal returns at most two items whose total sodium fits the
budget; the result is empty exactly when no candidate's sodium fits (in
particular when the list is empty); and a second item appears only when the
first covers less than 60% of the calorie target, and the add-on has a
distinct name, fits the remaining calorie headroom, and fits the remaining
sodium budget. -/
theorem pick_items_spec (cands : List FoodItem) (target_cal sodium_budget : ℤ)
    (hb : 0 ≤ sodium_budget) :
    (_pick_items_for_meal cands target_cal sodium_budget).length ≤ 2 ∧
    ((_pick_items_for_meal cands target_cal sodium_budget).map
        (fun i => i.sodium_mg)).sum ≤ sodium_budget ∧
    (_pick_items_for_meal cands target_cal sodium_budget = [] ↔
      ∀ f ∈ cands, sodium_budget < f.sodium_mg) ∧
    (∀ x y, _pick_items_for_meal cands target_cal sodium_budget = [x, y] →
      (x.calories : ℚ) < 0.6 * (target_cal : ℚ) ∧ y.name ≠ x.name ∧
      y.calories ≤ target_cal - x.calories ∧ y.sodium_mg ≤ sodium_budget - x.sodium_mg) := by
  by_cases hemp : cands.isEmpty = true
  · have hnil : cands = [] := List.isEmpty_iff.mp hemp
    simp [_pick_items_for_meal, hemp, hnil, hb]
  · cases hfind : (List.insertionSort (pickLe target_cal) cands).find?
        (fun f => decide (f.sodium_mg ≤ sodium_budget)) with
    | none =>
      have hall : ∀ f ∈ cands, sodium_budget < f.sodium_mg := by
        intro f hf
        have hmem : f ∈ List.insertionSort (pickLe target_cal) cands := by
          simpa [List.mem_insertionSort] using hf
        have hnot := List.find?_eq_none.mp hfind f hmem
        simp only [decide_eq_true_eq] at hnot
        exact not_le.mp hnot
      simp [_pick_items_for_meal, hemp, hfind, hb]
      exact hall
    | some f =>
      have hf_pred : f.sodium_mg ≤ sodium_budget := by
        have := List.find?_some hfind
        simpa using this
      have hf_mem : f ∈ cands := by
        have := List.mem_of_find?_eq_some hfind
        simpa [List.mem_insertionSort] using this
      have hrhs : ¬ (∀ g ∈ cands, sodium_budget < g.sodium_mg) := by
        intro hall
        exact absurd hf_pred (not_le.mpr (hall f hf_mem))
      by_cases hth : ((f.calories : ℚ) < 0.6 * (target_cal : ℚ))
      · cases hfind2 : (List.insertionSort (pickLe target_cal) cands).find?
            (fun g => decide (g.calories ≤ target_cal - f.calories) &&
              decide (g.sodium_mg ≤ sodium_budget - f.sodium_mg) && !(g.name == f.name)) with
        | none =>
          simp only [_pick_items_for_meal, hemp, Bool.false_eq_true, if_false, hfind,
            hfind2, hth, if_true]
          refine ⟨by simp, by simpa [_to_item] using hf_pred, by simp [hrhs], ?_⟩
          intro x y hxy
          cases hxy
        | some g =>
          have hg := List.find?_some hfind2
          simp only [Bool.and_eq_true, decide_eq_true_eq, Bool.not_eq_true',
            beq_eq_false_iff_ne, ne_eq] at hg
          obtain ⟨⟨hgcal, hgsod⟩, hgname⟩ := hg
          simp only [_pick_items_for_meal, hemp, Bool.false_eq_true, if_false, hfind,
            hfind2, hth, if_true]
          refine ⟨by simp, ?_, by simp [hrhs], ?_⟩
          · simp only [List.map_cons, List.map_nil, List.sum_cons, List.sum_nil, _to_item]
            omega
          · intro x y hxy
            simp only [List.cons.injEq, and_true] at hxy
            obtain ⟨hx, hy⟩ := hxy
            subst hx
            subst hy
            exact ⟨by simpa [_to_item] using hth, by simpa [_to_item] using hgname,
              by simpa [_to_item] using hgcal, by simpa [_to_item] using hgsod⟩
      · simp only [_pick_items_for_meal, hemp, Bool.false_eq_true, if_false, hfind,
          hth, if_false]
        refine ⟨by simp, by simpa [_to_item] using hf_pred, by simp [hrhs], ?_⟩
        intro x y hxy
        cases hxy

/-- Concrete candidates for the C4 witness. -/
def snackA : FoodItem :=
  ⟨"Sprouts salad", 120, 8, 16, 2, 5, 60, "low",
   ["high_fiber", "lean_protein"], ["veg", "vegan"], ["snack"], ["indian"], []⟩

/-- Concrete second candidate for the C4 witness. -/
def snackB : FoodItem :=
  ⟨"Roasted chana", 140, 7, 20, 3, 6, 80, "low",
   ["high_fiber", "lean_protein"], ["veg", "vegan"], ["snack"], ["indian"], []⟩

/-- C4 witness: the picker specification at a concrete candidate list,
target and budget. -/
theorem pick_items_spec_witness :
    (_pick_items_for_meal [snackA, snackB] 400 200).length ≤ 2 ∧
    ((_pick_items_for_meal [snackA, snackB] 400 200).map
        (fun i => i.sodium_mg)).sum ≤ 200 ∧
    (_pick_items_for_meal [snackA, snackB] 400 200 = [] ↔
      ∀ f ∈ [snackA, snackB], (200 : ℤ) < f.sodium_mg) ∧
    (∀ x y, _pick_items_for_meal [snackA, snackB] 400 200 = [x, y] →
      (x.calories : ℚ) < 0.6 * ((400 : ℤ) : ℚ) ∧ y.name ≠ x.name ∧
      y.calories ≤ 400 - x.calories ∧ y.sodium_mg ≤ 200 - x.sodium_mg) :=
  pick_items_spec [snackA, snackB] 400 200 (by decide)

/- ---------------- C5 ---------------- -/

theorem pyRound_half_even (x : ℚ) (n : ℤ) (hfl : ⌊x⌋ = n) (hfr : x - (n : ℚ) = 1 / 2)
    (he : n % 2 = 0) : pyRound x = n := by
  simp only [pyRound]
  rw [hfl, hfr]
  simp [he]

theorem activity_factor_sedentary : _activity_factor "sedentary" = 1.2 := by
  have h : lowerStr (trimStr (if ("sedentary" : String) = "" then "sedentary" else "sedentary"))
      = "sedentary" := by decide
  simp only [_activity_factor, h, activityLookup, eq_self_iff_true, if_true]

theorem stress_factor_low : _stress_factor "low" = 1 := by
  have h : lowerStr (trimStr (if ("low" : String) = "" then "moderate" else "low"))
      = "low" := by decide
  simp only [_stress_factor, h, stressLookup, eq_self_iff_true, if_true]
  norm_num

/-- The spec's scenario profile: 45-year-old male, 175 cm, 80 kg, sedentary,
low stress, no conditions, no overrides, no toggles. -/
def profile45 : UserProfile :=
  { personal := { age := 45, gender := "male", height_cm := 175, weight_kg := 80 }
    medical := {}
    dietary := {}
    lifestyle := { activity_level := "sedentary", stress_level := "low" }
    nutrition := {}
    special := {} }

theorem estimate_profile45 : estimate_daily_calories profile45 = 2008 := by
  have h1 : estimate_daily_calories profile45 = tdeeEstimate profile45 := rfl
  rw [h1]
  simp only [tdeeEstimate, _bmr_mifflin_st_jeor, profile45]
  simp [activity_factor_sedentary, stress_factor_low]
  apply pyRound_half_even _ 2008 <;> norm_num

/-- C5 counterexample: on the spec's scenario profile the code returns 2008,
not 2009 — TDEE is exactly 2008.5 and Python's round is half-to-even, so
int(round(2008.5)) = 2008. -/
theorem calorie_scenario_counterexample : estimate_daily_calories profile45 ≠ 2009 := by
  rw [estimate_profile45]
  decide

/-- C5 (amended): on the scenario profile estimate_daily_calories returns
exactly 2008 (BMR 1673.75 times 1.2 times 1.0 = 2008.5, which Python's
half-to-even round takes to the even integer 2008). -/
theorem calorie_scenario_banker_rounding : estimate_daily_calories profile45 = 2008 :=
  estimate_profile45

/- ---------------- C6 ---------------- -/

/-- C6 (confirmed): for every profile with meal_frequency 3 and snacking
preference "moderate", _compute_meal_split returns exactly the default split
(.25, .35, .30, .10): the moderate snack base equals the default snack
share, so no adjustment fires, the sum is exactly 1 and the final
normalization and 4-decimal rounding are the identity. -/
theorem meal_split_moderate (profile : UserProfile)
    (h1 : profile.dietary.meal_frequency = 3)
    (h2 : profile.dietary.snacking_preference = "moderate") :
    _compute_meal_split profile = ⟨0.25, 0.35, 0.30, 0.10⟩ := by
  have hlower : lowerStr (if ("moderate" : String) = "" then "moderate" else "moderate")
      = "moderate" := by decide
  have e1 : ("moderate" : String) ≠ "low" := by decide
  simp only [_compute_meal_split, h1, h2, hlower]
  norm_num [e1, pyRoundTo, pyRound, MealSplit.mk.injEq, max_def, min_def]

/-- Concrete profile for the C6 witness (defaults: frequency 3, moderate). -/
def profileSplit : UserProfile :=
  { personal := { age := 30, gender := "female", height_cm := 160, weight_kg := 55 }
    medical := {}
    dietary := {}
    lifestyle := {}
    nutrition := {}
    special := {} }

/-- C6 witness: the meal-split theorem at a concrete profile. -/
theorem meal_split_moderate_witness :
    _compute_meal_split profileSplit = ⟨0.25, 0.35, 0.30, 0.10⟩ :=
  meal_split_moderate profileSplit rfl rfl

/- ---------------- C7 ---------------- -/

theorem foodAllowed_of_mem_filter_foods {foods : List FoodItem} {profile : UserProfile}
    {constraints : ConstraintSpec} {f : FoodItem}
    (h : f ∈ filter_foods foods profile constraints) :
    f ∈ foods ∧ foodAllowed profile constraints f = true := by
  unfold filter_foods at h
  rw [List.mem_insertionSort] at h
  exact ⟨(List.mem_filter.mp h).1, (List.mem_filter.mp h).2⟩

theorem pick_items_mem {cands : List FoodItem} {target_cal sodium_budget : ℤ} {i : MealItem}
    (h : i ∈ _pick_items_for_meal cands target_cal sodium_budget) :
    ∃ f ∈ cands, i = _to_item f := by
  unfold _pick_items_for_meal at h
  split at h
  · simp at h
  · dsimp only at h
    split at h
    · simp at h
    next f hfind =>
      have hfmem : f ∈ cands := by
        have := List.mem_of_find?_eq_some hfind
        simpa [List.mem_insertionSort] using this
      split at h
      · split at h
        · simp at h
          exact ⟨f, hfmem, h⟩
        next g hfind2 =>
          have hgmem : g ∈ cands := by
            have := List.mem_of_find?_eq_some hfind2
            simpa [List.mem_insertionSort] using this
          simp only [List.mem_cons, List.not_mem_nil, or_false] at h
          rcases h with h | h
          · exact ⟨f, hfmem, h⟩
          · exact ⟨g, hgmem, h⟩
      · simp at h
        exact ⟨f, hfmem, h⟩

theorem assemble_meals_items {foods : List FoodItem} {profile : UserProfile}
    {calories sodium_limit : ℤ} {meal : String} {items : List MealItem}
    (hmem : (meal, items) ∈ (assemble_day_plan foods profile calories sodium_limit).1.meals)
    {i : MealItem} (hi : i ∈ items) :
    ∃ f ∈ filter_foods foods profile (build_constraints profile).1, i = _to_item f := by
  simp only [assemble_day_plan] at hmem
  simp only [List.mem_cons, List.not_mem_nil, or_false, Prod.mk.injEq] at hmem
  rcases hmem with ⟨-, hit⟩ | ⟨-, hit⟩ | ⟨-, hit⟩ | ⟨-, hit⟩ <;> subst hit
  · obtain ⟨f, hf, hif⟩ := pick_items_mem hi
    exact ⟨f, (List.mem_filter.mp hf).1, hif⟩
  · obtain ⟨f, hf, hif⟩ := pick_items_mem hi
    exact ⟨f, (List.mem_filter.mp hf).1, hif⟩
  · obtain ⟨f, hf, hif⟩ := pick_items_mem hi
    exact ⟨f, (List.mem_filter.mp hf).1, hif⟩
  · split at hi <;> split at hi <;>
      first
        | exact absurd hi (List.not_mem_nil i)
        | (obtain ⟨f, hf, hif⟩ := pick_items_mem hi
           exact ⟨f, (List.mem_filter.mp hf).1, hif⟩)

/-- C7 (confirmed): for a vegan profile, every food surviving filter_foods
has "vegan" among its diet_types (the diet-type gate is the first hard
check and is never relaxed), and hence every item placed in any meal slot
of the assembled day plan comes from such a food. -/
theorem vegan_gate (foods : List FoodItem) (profile : UserProfile)
    (calories sodium_limit : ℤ)
    (hv : profile.dietary.diet_type = "vegan") :
    (∀ f ∈ filter_foods foods profile (build_constraints profile).1,
      "vegan" ∈ f.diet_types) ∧
    (∀ meal items,
      (meal, items) ∈ (assemble_day_plan foods profile calories sodium_limit).1.meals →
      ∀ i ∈ items, ∃ f, "vegan" ∈ f.diet_types ∧ i = _to_item f) := by
  have hfilter : ∀ f ∈ filter_foods foods profile (build_constraints profile).1,
      "vegan" ∈ f.diet_types := by
    intro f hf
    have h2 := (foodAllowed_of_mem_filter_foods hf).2
    rw [foodAllowed_eq_true_iff] at h2
    have hdiet := h2.1
    rw [hv] at hdiet
    simpa using hdiet
  refine ⟨hfilter, ?_⟩
  intro meal items hmem i hi
  obtain ⟨f, hf, hif⟩ := assemble_meals_items hmem hi
  exact ⟨f, hfilter f hf, hif⟩

/-- Concrete vegan profile for the C7 witness. -/
def veganProfile : UserProfile :=
  { personal := { age := 30, gender := "other", height_cm := 170, weight_kg := 70 }
    medical := {}
    dietary := { diet_type := "vegan" }
    lifestyle := {}
    nutrition := {}
    special := {} }

/-- Concrete non-vegan food for the C7 witness catalog. -/
def paneerFood : FoodItem :=
  ⟨"Paneer bhurji", 260, 14, 8, 18, 1, 300, "low",
   ["lean_protein"], ["veg"], ["lunch", "dinner"], ["indian"], ["lactose"]⟩

/-- C7 witness: the vegan gate at a concrete catalog and profile. -/
theorem vegan_gate_witness :
    (∀ f ∈ filter_foods [oatsFood, paneerFood, snackA] veganProfile
        (build_constraints veganProfile).1, "vegan" ∈ f.diet_types) ∧
    (∀ meal items,
      (meal, items) ∈ (assemble_day_plan [oatsFood, paneerFood, snackA] veganProfile
        2000 2000).1.meals →
      ∀ i ∈ items, ∃ f, "vegan" ∈ f.diet_types ∧ i = _to_item f) :=
  vegan_gate [oatsFood, paneerFood, snackA] veganProfile 2000 2000 rfl

/- ---------------- C8 ---------------- -/

theorem weekly_day_entry (dp : DayPlan) (i : ℕ) (hi : i < 7) (meal : String)
    (items : List MealItem) (hmem : (meal, items) ∈ dp.meals) :
    (meal, if items.isEmpty then []
      else [items.getD (i % items.length) default]) ∈
      ((generate_weekly_plan dp).getD i ("", [])).2 := by
  interval_cases i <;> exact List.mem_map_of_mem _ hmem

/-- C8 (confirmed): generate_weekly_plan produces exactly the seven day
labels Mon..Sun in order, and on day i every meal slot of the day plan with
n >= 1 items is mapped to the singleton holding the item at index i mod n
(so 1-item slots repeat and 2-item slots alternate), while an empty slot
stays empty on every day. -/
theorem weekly_plan_rotation (dp : DayPlan) :
    ((generate_weekly_plan dp).map Prod.fst = week_days) ∧
    (∀ i, i < 7 → ∀ meal items, (meal, items) ∈ dp.meals →
      (items = [] →
        (meal, ([] : List MealItem)) ∈ ((generate_weekly_plan dp).getD i ("", [])).2) ∧
      (∀ hn : items ≠ [],
        (meal, [items.get ⟨i % items.length, Nat.mod_lt i (List.length_pos.mpr hn)⟩]) ∈
          ((generate_weekly_plan dp).getD i ("", [])).2)) := by
  refine ⟨rfl, ?_⟩
  intro i hi meal items hmem
  constructor
  · intro hnil
    have h := weekly_day_entry dp i hi meal items hmem
    rw [hnil] at h
    simpa using h
  · intro hn
    have h := weekly_day_entry dp i hi meal items hmem
    have hie : items.isEmpty = false := List.isEmpty_eq_false.mpr hn
    rw [hie] at h
    simp only [Bool.false_eq_true, if_false] at h
    rw [List.getD_eq_get _ _ (Nat.mod_lt i (List.length_pos.mpr hn))] at h
    exact h

/- ---------------- C9 ---------------- -/

/-- C9 (confirmed): whenever the user has not supplied all three macro
overrides, the macro percentages after every conditional adjustment sum to
exactly 1, so the unrounded gram values satisfy 4*protein + 4*carbs +
9*fats = calories, and compute_macros returns exactly those gram values
rounded to 1 decimal each. -/
theorem macro_energy_identity (profile : UserProfile) (calories : ℤ)
    (h : macroOverrides profile = false) :
    (macroPcts profile).1 + (macroPcts profile).2.1 + (macroPcts profile).2.2 = 1 ∧
    4 * ((calories : ℚ) * (macroPcts profile).1 / 4) +
      4 * ((calories : ℚ) * (macroPcts profile).2.1 / 4) +
      9 * ((calories : ℚ) * (macroPcts profile).2.2 / 9) = (calories : ℚ) ∧
    compute_macros profile calories =
      ⟨pyRoundTo 1 ((calories : ℚ) * (macroPcts profile).1 / 4),
       pyRoundTo 1 ((calories : ℚ) * (macroPcts profile).2.1 / 4),
       pyRoundTo 1 ((calories : ℚ) * (macroPcts profile).2.2 / 9)⟩ := by
  have hsum : (macroPcts profile).1 + (macroPcts profile).2.1 + (macroPcts profile).2.2 = 1 := by
    simp only [macroPcts]
    split_ifs <;> norm_num [min_def, max_def]
  refine ⟨hsum, ?_, ?_⟩
  · have hexp : 4 * ((calories : ℚ) * (macroPcts profile).1 / 4) +
        4 * ((calories : ℚ) * (macroPcts profile).2.1 / 4) +
        9 * ((calories : ℚ) * (macroPcts profile).2.2 / 9) =
        (calories : ℚ) * ((macroPcts profile).1 + (macroPcts profile).2.1 +
          (macroPcts profile).2.2) := by ring
    rw [hexp, hsum, mul_one]
  · simp [compute_macros, h, macroRatioResult]

/-- C9 witness: the energy identity at a concrete profile and calorie total. -/
theorem macro_energy_identity_witness :
    (macroPcts profileSplit).1 + (macroPcts profileSplit).2.1 + (macroPcts profileSplit).2.2 = 1 ∧
    4 * ((2000 : ℚ) * (macroPcts profileSplit).1 / 4) +
      4 * ((2000 : ℚ) * (macroPcts profileSplit).2.1 / 4) +
      9 * ((2000 : ℚ) * (macroPcts profileSplit).2.2 / 9) = ((2000 : ℤ) : ℚ) ∧
    compute_macros profileSplit 2000 =
      ⟨pyRoundTo 1 ((2000 : ℚ) * (macroPcts profileSplit).1 / 4),
       pyRoundTo 1 ((2000 : ℚ) * (macroPcts profileSplit).2.1 / 4),
       pyRoundTo 1 ((2000 : ℚ) * (macroPcts profileSplit).2.2 / 9)⟩ :=
  macro_energy_identity profileSplit 2000 (by decide)

/- ---------------- C10 ---------------- -/

/-- The scenario profile with an explicit zero daily-calories override. -/
def profile45zero : UserProfile :=
  { profile45 with nutrition := { profile45.nutrition with daily_calories := some 0 } }

/-- C10 (confirmed): zero-valued nutrition overrides are treated as absent.
estimate_daily_calories with daily_calories = 0 returns the same value as
with no override at all (the truthiness test falls through to the BMR-based
computation — on the scenario profile it returns 2008, not 0), and
compute_macros returns the user's macros verbatim exactly when all three of
protein_g, carbs_g, fats_g are present and non-zero, using the
ratio-derived values otherwise. -/
theorem zero_override_semantics :
    (∀ profile : UserProfile, profile.nutrition.daily_calories = some 0 →
      estimate_daily_calories profile =
        estimate_daily_calories
          { profile with nutrition := { profile.nutrition with daily_calories := none } }) ∧
    (estimate_daily_calories profile45zero = 2008 ∧ (2008 : ℤ) ≠ 0) ∧
    (∀ (profile : UserProfile) (calories : ℤ), macroOverrides profile = true →
      compute_macros profile calories =
        ⟨profile.nutrition.protein_g.getD 0, profile.nutrition.carbs_g.getD 0,
         profile.nutrition.fats_g.getD 0⟩) ∧
    (∀ (profile : UserProfile) (calories : ℤ), macroOverrides profile = false →
      compute_macros profile calories = macroRatioResult profile calories) := by
  refine ⟨?_, ⟨?_, by decide⟩, ?_, ?_⟩
  · intro profile hdc
    simp only [estimate_daily_calories, hdc]
    norm_num
    rfl
  · have h0 : estimate_daily_calories profile45zero = tdeeEstimate profile45zero := by
      simp [estimate_daily_calories, profile45zero]
    rw [h0]
    have h1 : tdeeEstimate profile45zero = tdeeEstimate profile45 := rfl
    rw [h1]
    have h2 : estimate_daily_calories profile45 = tdeeEstimate profile45 := rfl
    rw [← h2]
    exact estimate_profile45
  · intro profile calories h
    simp [compute_macros, h]
  · intro profile calories h
    simp [compute_macros, h]

end DietRec
